import Mathlib

/-!
Shallow embedding of the viewport / annotation core of `src/App.jsx`
(an image annotation tool: zoom/pan viewport over a canvas, rectangle
annotations in natural image pixels).

JavaScript numbers are modelled as exact rationals (ℚ); `Math.round` is
round-half-up (`⌊q + 1/2⌋`); natural-pixel coordinates produced by
`eventToImageCoords` are integers (ℤ).
-/

namespace Annotator

/-- A point with rational (surface/screen pixel) coordinates. -/
structure Point where
  x : ℚ
  y : ℚ
  deriving DecidableEq, Repr

/-- A point in natural image pixels; `eventToImageCoords` rounds to integers. -/
structure NPoint where
  x : ℤ
  y : ℤ
  deriving DecidableEq, Repr

/-- The canvas drawing surface: `canvas.width` / `canvas.height` in device pixels. -/
structure Canvas where
  width : ℚ
  height : ℚ
  deriving DecidableEq, Repr

/-- The loaded image with its natural (intrinsic) pixel dimensions. -/
structure Img where
  naturalWidth : ℕ
  naturalHeight : ℕ
  deriving DecidableEq, Repr

/-- Pan bounds returned by `getPanBounds`. -/
structure PanBounds where
  minX : ℚ
  maxX : ℚ
  minY : ℚ
  maxY : ℚ
  deriving DecidableEq, Repr

/-- JavaScript `Math.round`: round half toward positive infinity. -/
def jsRound (q : ℚ) : ℤ := ⌊q + 1 / 2⌋

/-- `getPanBounds` from App.jsx lines 205-242 (the canvas-present case):
allowed pan range so the image stays within canvas bounds. -/
def getPanBounds (cw ch : ℚ) (z : ℚ) : PanBounds :=
  let contentW := z * cw
  let contentH := z * ch
  if contentW ≤ cw ∧ contentH ≤ ch then
    let cx := (cw - contentW) / 2
    let cy := (ch - contentH) / 2
    { minX := cx, maxX := cx, minY := cy, maxY := cy }
  else
    let b0 : PanBounds :=
      { minX := min 0 (cw - contentW), maxX := 0
        minY := min 0 (ch - contentH), maxY := 0 }
    let b1 :=
      if contentW ≤ cw then
        let cx := (cw - contentW) / 2
        { b0 with minX := cx, maxX := cx }
      else b0
    let b2 :=
      if contentH ≤ ch then
        let cy := (ch - contentH) / 2
        { b1 with minY := cy, maxY := cy }
      else b1
    b2

/-- `clampPan` from App.jsx lines 244-250. -/
def clampPan (cw ch : ℚ) (z : ℚ) (p : Point) : Point :=
  let b := getPanBounds cw ch z
  { x := min b.maxX (max b.minX p.x)
    y := min b.maxY (max b.minY p.y) }

/-- A pan lies within pan bounds. -/
def inBounds (b : PanBounds) (p : Point) : Prop :=
  b.minX ≤ p.x ∧ p.x ≤ b.maxX ∧ b.minY ≤ p.y ∧ p.y ≤ b.maxY

instance (b : PanBounds) (p : Point) : Decidable (inBounds b p) := by
  unfold inBounds; infer_instance

/-- In every branch of `getPanBounds`, the lower bound of each axis is at most
the upper bound. -/
lemma getPanBounds_min_le_max (cw ch z : ℚ) :
    (getPanBounds cw ch z).minX ≤ (getPanBounds cw ch z).maxX ∧
    (getPanBounds cw ch z).minY ≤ (getPanBounds cw ch z).maxY := by
  unfold getPanBounds
  dsimp only
  split
  · exact ⟨le_refl _, le_refl _⟩
  · constructor
    · split
      · split <;> simp
      · split <;> simp [min_le_iff]
    · split
      · split <;> simp
      · split <;> simp [min_le_iff]

/-- Clamping one coordinate into an interval with `min hi (max lo v)` lands in
the interval whenever `lo ≤ hi`. -/
lemma clamp1_mem (lo hi v : ℚ) (h : lo ≤ hi) :
    lo ≤ min hi (max lo v) ∧ min hi (max lo v) ≤ hi :=
  ⟨le_min h (le_max_left lo v), min_le_left hi _⟩

/-- The output of `clampPan` always lies within `getPanBounds`. -/
lemma clampPan_inBounds (cw ch z : ℚ) (p : Point) :
    inBounds (getPanBounds cw ch z) (clampPan cw ch z p) := by
  have hx := getPanBounds_min_le_max cw ch z
  have h1 := clamp1_mem (getPanBounds cw ch z).minX (getPanBounds cw ch z).maxX p.x hx.1
  have h2 := clamp1_mem (getPanBounds cw ch z).minY (getPanBounds cw ch z).maxY p.y hx.2
  exact ⟨h1.1, h1.2, h2.1, h2.2⟩

/-- If a pan is already within bounds, `clampPan` leaves it unchanged. -/
lemma clampPan_eq_of_inBounds {cw ch z : ℚ} {p : Point}
    (h : inBounds (getPanBounds cw ch z) p) : clampPan cw ch z p = p := by
  obtain ⟨h1, h2, h3, h4⟩ := h
  unfold clampPan
  dsimp only
  congr 1
  · rw [max_eq_right h1, min_eq_right h2]
  · rw [max_eq_right h3, min_eq_right h4]

/-! ## Viewport controller operations -/

/-- The viewport state: zoom and pan (`zoomRef` / `panRef` in App.jsx). -/
structure Viewport where
  zoom : ℚ
  pan : Point
  deriving DecidableEq, Repr

/-- The unclamped pan solved for by the zoom branch of `wheelHandler`
(App.jsx lines 397-398): keeps the content point under the mouse fixed. -/
def rawZoomPan (vp : Viewport) (mx my newZ : ℚ) : Point :=
  { x := mx - (mx - vp.pan.x) * newZ / vp.zoom
    y := my - (my - vp.pan.y) * newZ / vp.zoom }

/-- The new zoom computed by the zoom branch of `wheelHandler`
(App.jsx line 393): `Math.min(maxZ, Math.max(minZ, oldZ * factor))`
with `minZ = 0.2`, `maxZ = 8`. -/
def newZoom (oldZ factor : ℚ) : ℚ :=
  min 8 (max (1 / 5) (oldZ * factor))

/-- The zoom branch of `wheelHandler` (App.jsx lines 380-406): zoom toward
the mouse point `(mx, my)` (already in canvas pixel coordinates) by `factor`,
clamping zoom to `[0.2, 8]` and pan to the pan bounds at the new zoom.
Returns the viewport unchanged when the clamped zoom equals the old zoom. -/
def wheelZoom (cw ch : ℚ) (vp : Viewport) (mx my factor : ℚ) : Viewport :=
  let oldZ := vp.zoom
  let newZ := newZoom oldZ factor
  if newZ = oldZ then vp
  else
    { zoom := newZ, pan := clampPan cw ch newZ (rawZoomPan vp mx my newZ) }

/-- The panning branch of `onMouseMove` (App.jsx lines 316-328): recompute the
pan from the mouse position and the recorded pan start offset, then clamp.
`clientX/clientY` are the event coordinates, `rectLeft/rectTop` the canvas
bounding rectangle origin, `panStart` the offset recorded by `onMouseDown`. -/
def onMouseMovePan (cw ch : ℚ) (vp : Viewport) (dpr rectLeft rectTop clientX clientY : ℚ)
    (panStart : Point) : Viewport :=
  let raw : Point :=
    { x := (clientX - rectLeft) * dpr - panStart.x
      y := (clientY - rectTop) * dpr - panStart.y }
  { vp with pan := clampPan cw ch vp.zoom raw }

/-- The space-held panning branch of `wheelHandler` (App.jsx lines 410-424):
pan by the wheel delta (scaled by line height when `deltaMode` is 1), then
clamp. -/
def wheelSpacePan (cw ch : ℚ) (vp : Viewport) (deltaX deltaY : ℚ)
    (deltaMode : ℕ) (shiftKey : Bool) : Viewport :=
  let lineHeight : ℚ := 16
  let scale := if deltaMode = 1 then lineHeight else 1
  let dX := if shiftKey then deltaY else deltaX
  let dY := if shiftKey then 0 else deltaY
  let raw : Point :=
    { x := vp.pan.x - dX * scale
      y := vp.pan.y - dY * scale }
  { vp with pan := clampPan cw ch vp.zoom raw }

/-- `resetView` (App.jsx lines 252-260): zoom back to 1 and center the pan. -/
def resetView (cw ch : ℚ) : Viewport :=
  let z : ℚ := 1
  { zoom := z, pan := clampPan cw ch z { x := 0, y := 0 } }

/-! ## Surface sizing (`fitCanvasToContainer`) -/

/-- The state touched by `fitCanvasToContainer`: current css size (as read
back with `parseInt` from `canvas.style`), canvas pixel size, scroll offset,
and the viewport. -/
structure SurfaceState where
  cssW : ℤ
  cssH : ℤ
  pixelW : ℤ
  pixelH : ℤ
  scroll : Point
  vp : Viewport
  deriving DecidableEq, Repr

/-- The css width computed by `fitCanvasToContainer` (App.jsx lines 168,
173): container client width minus 32px of padding, capped at the image's
natural width. (The source also computes a `containerHeight`, which it
never uses.) -/
def nextCssWidth (clientW : ℤ) (img : Img) : ℤ :=
  let containerWidth := clientW - 32
  min containerWidth (img.naturalWidth : ℤ)

/-- The css height computed by `fitCanvasToContainer` (App.jsx lines 170,
174): `round(nextCssWidth / aspect)` with `aspect = naturalWidth / naturalHeight`. -/
def nextCssHeight (clientW : ℤ) (img : Img) : ℤ :=
  let aspect : ℚ := (img.naturalWidth : ℚ) / (img.naturalHeight : ℚ)
  jsRound ((nextCssWidth clientW img : ℚ) / aspect)

/-- The canvas pixel width computed by `fitCanvasToContainer` (App.jsx line
177): css width scaled by the device pixel ratio, rounded. -/
def nextPixelWidth (clientW : ℤ) (img : Img) (dpr : ℚ) : ℤ :=
  jsRound ((nextCssWidth clientW img : ℚ) * dpr)

/-- The canvas pixel height computed by `fitCanvasToContainer` (App.jsx line
178). -/
def nextPixelHeight (clientW : ℤ) (img : Img) (dpr : ℚ) : ℤ :=
  jsRound ((nextCssHeight clientW img : ℚ) * dpr)

/-- `fitCanvasToContainer` (App.jsx lines 161-200, the case where canvas,
container and image are all present): size the canvas to the container width
(minus 32px padding) capped at the image's natural width, preserving aspect;
return early when nothing changes; otherwise update sizes, reset scroll and
re-clamp the pan against the new canvas pixel size. -/
def fitCanvasToContainer (clientW : ℤ) (img : Img) (dpr : ℚ)
    (st : SurfaceState) : SurfaceState :=
  let nextW := nextCssWidth clientW img
  let nextH := nextCssHeight clientW img
  let nextPW := nextPixelWidth clientW img dpr
  let nextPH := nextPixelHeight clientW img dpr
  if st.cssW = nextW ∧ st.cssH = nextH ∧ st.pixelW = nextPW ∧ st.pixelH = nextPH then
    st
  else
    { cssW := nextW
      cssH := nextH
      pixelW := nextPW
      pixelH := nextPH
      scroll := { x := 0, y := 0 }
      vp := { zoom := st.vp.zoom
              pan := clampPan (nextPW : ℚ) (nextPH : ℚ) st.vp.zoom st.vp.pan } }

/-! ## Coordinate transform (`eventToImageCoords`) -/

/-- The core of `eventToImageCoords` (App.jsx lines 268-289) once canvas and
image are present, taking the mouse point already converted to canvas pixel
coordinates `(cx, cy)`: invert the pan/zoom transform, rescale from canvas
drawing space to natural image pixels, round, and clamp into
`[0, naturalWidth] × [0, naturalHeight]`. -/
def imageCoordsCore (canvas : Canvas) (img : Img) (z : ℚ) (pan : Point)
    (cx cy : ℚ) : NPoint :=
  let vx := (cx - pan.x) / z
  let vy := (cy - pan.y) / z
  let sx := (img.naturalWidth : ℚ) / canvas.width
  let sy := (img.naturalHeight : ℚ) / canvas.height
  { x := max 0 (min (img.naturalWidth : ℤ) (jsRound (vx * sx)))
    y := max 0 (min (img.naturalHeight : ℤ) (jsRound (vy * sy))) }

/-- `eventToImageCoords` (App.jsx lines 264-290): convert a client event
point to natural image pixels; returns the origin when the canvas or the
image reference is missing. -/
def eventToImageCoords (canvas? : Option Canvas) (img? : Option Img)
    (dpr rectLeft rectTop clientX clientY : ℚ) (z : ℚ) (pan : Point) : NPoint :=
  match canvas?, img? with
  | some canvas, some img =>
    let cx := (clientX - rectLeft) * dpr
    let cy := (clientY - rectTop) * dpr
    imageCoordsCore canvas img z pan cx cy
  | some _, none => { x := 0, y := 0 }
  | none, _ => { x := 0, y := 0 }

/-! ## Annotation store -/

/-- An annotation box (`boxes` entries in App.jsx): rectangle in natural
image pixels plus id and name. -/
structure Box where
  id : String
  x : ℤ
  y : ℤ
  w : ℤ
  h : ℤ
  name : String
  deriving DecidableEq, Repr

/-- The transient draw-gesture state (`isDrawing`, `startPt`, `currentPt`). -/
structure DrawState where
  isDrawing : Bool
  startPt : Option NPoint
  currentPt : Option NPoint
  deriving DecidableEq, Repr

/-- `endInteractions` (App.jsx lines 336-364), restricted to the drawing
lifecycle: commit the in-progress gesture if it is valid and both dimensions
exceed 5 natural pixels, appending one new box with the freshly generated id
`newId` and empty name; otherwise leave the boxes unchanged. Always clears
the gesture state. -/
def endInteractions (ds : DrawState) (newId : String) (boxes : List Box) :
    List Box × DrawState :=
  let cleared : DrawState := { isDrawing := false, startPt := none, currentPt := none }
  match ds.isDrawing, ds.startPt, ds.currentPt with
  | true, some s, some c =>
    let x := min s.x c.x
    let y := min s.y c.y
    let w := |c.x - s.x|
    let h := |c.y - s.y|
    let boxes' :=
      if 5 < w ∧ 5 < h then
        boxes ++ [{ id := newId, x := x, y := y, w := w, h := h, name := "" }]
      else boxes
    (boxes', cleared)
  | true, some _, none => (boxes, cleared)
  | true, none, _ => (boxes, cleared)
  | false, _, _ => (boxes, cleared)

/-- `updateBoxName` (App.jsx lines 528-530): rename the box with the given
id, leaving everything else unchanged. -/
def updateBoxName (boxes : List Box) (id : String) (name : String) : List Box :=
  boxes.map fun b => if b.id = id then { b with name := name } else b

/-- `deleteBox` (App.jsx lines 532-534): remove the box with the given id. -/
def deleteBox (boxes : List Box) (id : String) : List Box :=
  boxes.filter fun b => b.id ≠ id

/-! ## Claim theorems -/

/-- C2: for every zoom `z` and surface pixel dimensions `(cw, ch)`,
`getPanBounds` behaves per axis independently: if the content size
`z * dimension` is at most the viewport dimension, min and max both equal
`(viewport - content) / 2`; otherwise min is `viewport - content` (which is
negative) and max is `0`. -/
theorem getPanBounds_per_axis (cw ch z : ℚ) :
    getPanBounds cw ch z =
      { minX := if z * cw ≤ cw then (cw - z * cw) / 2 else cw - z * cw
        maxX := if z * cw ≤ cw then (cw - z * cw) / 2 else 0
        minY := if z * ch ≤ ch then (ch - z * ch) / 2 else ch - z * ch
        maxY := if z * ch ≤ ch then (ch - z * ch) / 2 else 0 } ∧
    (¬ z * cw ≤ cw → cw - z * cw < 0) ∧ (¬ z * ch ≤ ch → ch - z * ch < 0) := by
  refine ⟨?_, fun h => by linarith [not_le.mp h], fun h => by linarith [not_le.mp h]⟩
  unfold getPanBounds
  dsimp only
  by_cases h1 : z * cw ≤ cw <;> by_cases h2 : z * ch ≤ ch <;>
    simp only [h1, h2, and_self, and_true, and_false, true_and, false_and,
      if_true, if_false, ite_true, ite_false, PanBounds.mk.injEq]
  · exact min_eq_right (by linarith [not_le.mp h2])
  · exact min_eq_right (by linarith [not_le.mp h1])
  · exact ⟨min_eq_right (by linarith [not_le.mp h1]),
      min_eq_right (by linarith [not_le.mp h2])⟩

/-- C2 witness: concrete evaluation of the per-axis characterization at
zoom 2 on a 100 × 100 surface. -/
theorem getPanBounds_per_axis_witness :
    getPanBounds 100 100 2 =
      { minX := if (2 : ℚ) * 100 ≤ 100 then ((100 : ℚ) - 2 * 100) / 2 else 100 - 2 * 100
        maxX := if (2 : ℚ) * 100 ≤ 100 then ((100 : ℚ) - 2 * 100) / 2 else 0
        minY := if (2 : ℚ) * 100 ≤ 100 then ((100 : ℚ) - 2 * 100) / 2 else 100 - 2 * 100
        maxY := if (2 : ℚ) * 100 ≤ 100 then ((100 : ℚ) - 2 * 100) / 2 else 0 } ∧
    (100 : ℚ) - 2 * 100 < 0 :=
  ⟨(getPanBounds_per_axis 100 100 2).1,
    (getPanBounds_per_axis 100 100 2).2.1 (by norm_num)⟩

/-- C3: the zoom resulting from a wheel-zoom request equals
`clamp(oldZoom * factor, 0.2, 8)`; an arbitrarily large factor yields zoom 8
and an arbitrarily small positive factor yields zoom 0.2. -/
theorem wheelZoom_zoom_clamped (cw ch : ℚ) (vp : Viewport) (mx my factor : ℚ) :
    (wheelZoom cw ch vp mx my factor).zoom = min 8 (max (1 / 5) (vp.zoom * factor)) ∧
    (1 / 5 ≤ vp.zoom → (wheelZoom cw ch vp mx my 1000000000).zoom = 8) ∧
    (vp.zoom ≤ 8 → (wheelZoom cw ch vp mx my (1 / 1000000000)).zoom = 1 / 5) := by
  have hmain : ∀ f : ℚ, (wheelZoom cw ch vp mx my f).zoom = newZoom vp.zoom f := by
    intro f
    unfold wheelZoom
    dsimp only
    split
    · next h => exact h.symm
    · rfl
  refine ⟨hmain factor, ?_, ?_⟩
  · intro h
    rw [hmain]
    unfold newZoom
    have h8 : (8 : ℚ) ≤ vp.zoom * 1000000000 := by nlinarith
    rw [max_eq_right (by linarith), min_eq_left h8]
  · intro h
    rw [hmain]
    unfold newZoom
    have hsmall : vp.zoom * (1 / 1000000000) ≤ 1 / 5 := by nlinarith
    rw [max_eq_left hsmall, min_eq_right (by norm_num)]

/-- C3 witness: `zoomAt(p, 1e9)` from zoom 1 clamps the zoom to 8. -/
theorem wheelZoom_zoom_clamped_witness :
    (wheelZoom 100 100 { zoom := 1, pan := { x := 0, y := 0 } } 0 0 1000000000).zoom = 8 :=
  (wheelZoom_zoom_clamped 100 100 { zoom := 1, pan := { x := 0, y := 0 } }
    0 0 1000000000).2.1 (by norm_num)

/-- C9: when the canvas or the image reference is missing,
`eventToImageCoords` returns the neutral origin point instead of failing. -/
theorem eventToImageCoords_missing_default (canvas? : Option Canvas)
    (img? : Option Img) (dpr rectLeft rectTop clientX clientY z : ℚ) (pan : Point)
    (h : canvas? = none ∨ img? = none) :
    eventToImageCoords canvas? img? dpr rectLeft rectTop clientX clientY z pan =
      { x := 0, y := 0 } := by
  rcases h with h | h
  · subst h
    cases img? <;> rfl
  · subst h
    cases canvas? <;> rfl

/-- C9 witness: missing image yields the origin. -/
theorem eventToImageCoords_missing_default_witness :
    eventToImageCoords (some { width := 100, height := 100 }) none 1 0 0 5 5 1
      { x := 0, y := 0 } = { x := 0, y := 0 } :=
  eventToImageCoords_missing_default (some { width := 100, height := 100 }) none
    1 0 0 5 5 1 { x := 0, y := 0 } (Or.inr rfl)

/-- C5: committing a draw gesture with start `s` and current `c` appends
exactly one new box `{x = min, y = min, w = |dx|, h = |dy|}` with the freshly
generated id and empty name when both `w > 5` and `h > 5`; otherwise — and
whenever the gesture is invalid (not drawing, or a missing endpoint) — the
box sequence is unchanged. -/
theorem endInteractions_commit (s c : NPoint) (newId : String) (boxes : List Box) :
    (5 < |c.x - s.x| ∧ 5 < |c.y - s.y| →
      (endInteractions { isDrawing := true, startPt := some s, currentPt := some c }
          newId boxes).1 =
        boxes ++ [{ id := newId, x := min s.x c.x, y := min s.y c.y,
                    w := |c.x - s.x|, h := |c.y - s.y|, name := "" }]) ∧
    (¬ (5 < |c.x - s.x| ∧ 5 < |c.y - s.y|) →
      (endInteractions { isDrawing := true, startPt := some s, currentPt := some c }
          newId boxes).1 = boxes) ∧
    (∀ sp cp, (endInteractions { isDrawing := false, startPt := sp, currentPt := cp }
        newId boxes).1 = boxes) ∧
    (∀ cp, (endInteractions { isDrawing := true, startPt := none, currentPt := cp }
        newId boxes).1 = boxes) ∧
    (endInteractions { isDrawing := true, startPt := some s, currentPt := none }
        newId boxes).1 = boxes := by
  refine ⟨fun h => ?_, fun h => ?_, fun sp cp => ?_, fun cp => ?_, rfl⟩
  · simp only [endInteractions, if_pos h]
  · simp only [endInteractions, if_neg h]
  · cases sp <;> cases cp <;> rfl
  · cases cp <;> rfl

/-- C5 witness: a `20 × 20` gesture from the origin commits one box; the
below-threshold and not-drawing cases leave the list unchanged. -/
theorem endInteractions_commit_witness :
    (endInteractions
        { isDrawing := true, startPt := some { x := 0, y := 0 },
          currentPt := some { x := 20, y := 20 } } "field-1" []).1 =
      [] ++ [{ id := "field-1", x := min 0 20, y := min 0 20,
               w := |(20 : ℤ) - 0|, h := |(20 : ℤ) - 0|, name := "" }] ∧
    (endInteractions
        { isDrawing := true, startPt := some { x := 0, y := 0 },
          currentPt := some { x := 3, y := 3 } } "field-2" []).1 = [] ∧
    (endInteractions
        { isDrawing := false, startPt := none, currentPt := none } "field-3" []).1 = [] :=
  ⟨(endInteractions_commit { x := 0, y := 0 } { x := 20, y := 20 } "field-1" []).1
      (by decide),
    (endInteractions_commit { x := 0, y := 0 } { x := 3, y := 3 } "field-2" []).2.1
      (by decide),
    (endInteractions_commit { x := 0, y := 0 } { x := 0, y := 0 } "field-3" []).2.2.1
      none none⟩

/-- C6: renaming or removing an id that is absent from the box list leaves
the list literally unchanged; when the id is present, rename keeps the
length and changes only the name of matching entries, and remove keeps
exactly the non-matching entries in their original order. -/
theorem updateBoxName_deleteBox_spec (boxes : List Box) (boxId name : String) :
    ((∀ b ∈ boxes, b.id ≠ boxId) →
      updateBoxName boxes boxId name = boxes ∧ deleteBox boxes boxId = boxes) ∧
    (updateBoxName boxes boxId name).length = boxes.length ∧
    (∀ i (h : i < boxes.length),
      (updateBoxName boxes boxId name).get
          ⟨i, by simpa [updateBoxName] using h⟩ =
        (if (boxes.get ⟨i, h⟩).id = boxId
          then { boxes.get ⟨i, h⟩ with name := name }
          else boxes.get ⟨i, h⟩)) ∧
    (∀ b, b ∈ deleteBox boxes boxId ↔ b ∈ boxes ∧ b.id ≠ boxId) ∧
    (deleteBox boxes boxId).Sublist boxes := by
  refine ⟨fun h => ⟨?_, ?_⟩, ?_, ?_, ?_, ?_⟩
  · have : ∀ b ∈ boxes, (if b.id = boxId then { b with name := name } else b) = b := by
      intro b hb
      rw [if_neg (h b hb)]
    unfold updateBoxName
    rw [List.map_congr_left this]
    simp
  · apply List.filter_eq_self.mpr
    intro b hb
    simpa using h b hb
  · simp [updateBoxName]
  · intro i h
    simp [updateBoxName, List.get_eq_getElem]
  · intro b
    simp [deleteBox, List.mem_filter]
  · exact List.filter_sublist boxes

/-- C6 witness: renaming a non-existent id leaves a concrete list unchanged,
and removing an absent id does too. -/
theorem updateBoxName_deleteBox_spec_witness :
    updateBoxName [{ id := "a", x := 0, y := 0, w := 10, h := 10, name := "n" }]
        "zzz" "other" =
      [{ id := "a", x := 0, y := 0, w := 10, h := 10, name := "n" }] ∧
    deleteBox [{ id := "a", x := 0, y := 0, w := 10, h := 10, name := "n" }] "zzz" =
      [{ id := "a", x := 0, y := 0, w := 10, h := 10, name := "n" }] :=
  (updateBoxName_deleteBox_spec
      [{ id := "a", x := 0, y := 0, w := 10, h := 10, name := "n" }] "zzz" "other").1
    (by decide)

/-! ## Remaining claim theorems -/

/-- The coordinates produced by `imageCoordsCore` always land in
`[0, naturalWidth] × [0, naturalHeight]`. -/
lemma imageCoordsCore_mem (canvas : Canvas) (img : Img) (z : ℚ) (pan : Point)
    (cx cy : ℚ) :
    0 ≤ (imageCoordsCore canvas img z pan cx cy).x ∧
    (imageCoordsCore canvas img z pan cx cy).x ≤ (img.naturalWidth : ℤ) ∧
    0 ≤ (imageCoordsCore canvas img z pan cx cy).y ∧
    (imageCoordsCore canvas img z pan cx cy).y ≤ (img.naturalHeight : ℤ) := by
  unfold imageCoordsCore
  exact ⟨le_max_left _ _, max_le (Int.natCast_nonneg _) (min_le_left _ _),
    le_max_left _ _, max_le (Int.natCast_nonneg _) (min_le_left _ _)⟩

/-- C4: with an image and a surface present, the screen-to-natural transform
returns a point whose `x` lies in `[0, naturalWidth]` and whose `y` lies in
`[0, naturalHeight]`, after converting to surface pixels, inverting the
pan/zoom transform and rescaling to natural pixels. -/
theorem eventToImageCoords_in_range (canvas : Canvas) (img : Img)
    (dpr rectLeft rectTop clientX clientY z : ℚ) (pan : Point)
    (hz : 0 < z) (hw : 0 < canvas.width) (hh : 0 < canvas.height) :
    0 ≤ (eventToImageCoords (some canvas) (some img) dpr rectLeft rectTop
        clientX clientY z pan).x ∧
    (eventToImageCoords (some canvas) (some img) dpr rectLeft rectTop
        clientX clientY z pan).x ≤ (img.naturalWidth : ℤ) ∧
    0 ≤ (eventToImageCoords (some canvas) (some img) dpr rectLeft rectTop
        clientX clientY z pan).y ∧
    (eventToImageCoords (some canvas) (some img) dpr rectLeft rectTop
        clientX clientY z pan).y ≤ (img.naturalHeight : ℤ) := by
  unfold eventToImageCoords
  exact imageCoordsCore_mem canvas img z pan _ _

/-- C4 witness: a concrete event on a 100 × 100 canvas over a 50 × 50 image
maps into the image rectangle. -/
theorem eventToImageCoords_in_range_witness :
    0 ≤ (eventToImageCoords (some { width := 100, height := 100 })
        (some { naturalWidth := 50, naturalHeight := 50 }) 1 0 0 40 40 1
        { x := 0, y := 0 }).x ∧
    (eventToImageCoords (some { width := 100, height := 100 })
        (some { naturalWidth := 50, naturalHeight := 50 }) 1 0 0 40 40 1
        { x := 0, y := 0 }).x ≤ ((50 : ℕ) : ℤ) ∧
    0 ≤ (eventToImageCoords (some { width := 100, height := 100 })
        (some { naturalWidth := 50, naturalHeight := 50 }) 1 0 0 40 40 1
        { x := 0, y := 0 }).y ∧
    (eventToImageCoords (some { width := 100, height := 100 })
        (some { naturalWidth := 50, naturalHeight := 50 }) 1 0 0 40 40 1
        { x := 0, y := 0 }).y ≤ ((50 : ℕ) : ℤ) :=
  eventToImageCoords_in_range { width := 100, height := 100 }
    { naturalWidth := 50, naturalHeight := 50 } 1 0 0 40 40 1 { x := 0, y := 0 }
    (by norm_num) (by norm_num) (by norm_num)

/-- C1: every controller operation that writes the pan — wheel zoom,
drag-based panning, wheel panning, surface resize refit, and view reset —
leaves the pan within `getPanBounds` for the zoom and surface pixel
dimensions in effect after the operation (assuming the invariant held
before, which covers the branches that do not write the pan). -/
theorem pan_always_in_bounds (cw ch : ℚ) (vp : Viewport)
    (hvp : inBounds (getPanBounds cw ch vp.zoom) vp.pan)
    (st : SurfaceState)
    (hst : inBounds (getPanBounds (st.pixelW : ℚ) (st.pixelH : ℚ) st.vp.zoom) st.vp.pan) :
    (∀ mx my factor,
      inBounds (getPanBounds cw ch (wheelZoom cw ch vp mx my factor).zoom)
        (wheelZoom cw ch vp mx my factor).pan) ∧
    (∀ dpr rectLeft rectTop clientX clientY panStart,
      inBounds (getPanBounds cw ch
          (onMouseMovePan cw ch vp dpr rectLeft rectTop clientX clientY panStart).zoom)
        (onMouseMovePan cw ch vp dpr rectLeft rectTop clientX clientY panStart).pan) ∧
    (∀ deltaX deltaY deltaMode shiftKey,
      inBounds (getPanBounds cw ch
          (wheelSpacePan cw ch vp deltaX deltaY deltaMode shiftKey).zoom)
        (wheelSpacePan cw ch vp deltaX deltaY deltaMode shiftKey).pan) ∧
    inBounds (getPanBounds cw ch (resetView cw ch).zoom) (resetView cw ch).pan ∧
    (∀ clientW img dpr,
      inBounds (getPanBounds
          ((fitCanvasToContainer clientW img dpr st).pixelW : ℚ)
          ((fitCanvasToContainer clientW img dpr st).pixelH : ℚ)
          (fitCanvasToContainer clientW img dpr st).vp.zoom)
        (fitCanvasToContainer clientW img dpr st).vp.pan) := by
  refine ⟨fun mx my factor => ?_, fun dpr rl rt cx cy ps => ?_,
    fun dX dY dm sk => ?_, ?_, fun clientW img dpr => ?_⟩
  · unfold wheelZoom
    dsimp only
    split
    · exact hvp
    · exact clampPan_inBounds cw ch _ _
  · exact clampPan_inBounds cw ch _ _
  · exact clampPan_inBounds cw ch _ _
  · exact clampPan_inBounds cw ch _ _
  · unfold fitCanvasToContainer
    dsimp only
    split
    · exact hst
    · exact clampPan_inBounds _ _ _ _

/-- C1 witness: the reset operation on a 100 × 100 surface produces a pan
within bounds, starting from an in-bounds state. -/
theorem pan_always_in_bounds_witness :
    inBounds (getPanBounds 100 100 (resetView 100 100).zoom) (resetView 100 100).pan :=
  (pan_always_in_bounds 100 100 { zoom := 1, pan := { x := 0, y := 0 } }
    (by norm_num [inBounds, getPanBounds])
    { cssW := 100, cssH := 100, pixelW := 100, pixelH := 100,
      scroll := { x := 0, y := 0 },
      vp := { zoom := 1, pan := { x := 0, y := 0 } } }
    (by norm_num [inBounds, getPanBounds])).2.2.2.1

/-- After any call of `fitCanvasToContainer`, the stored css and pixel
dimensions equal the freshly computed ones. -/
lemma fitCanvasToContainer_dims (clientW : ℤ) (img : Img) (dpr : ℚ)
    (st : SurfaceState) :
    (fitCanvasToContainer clientW img dpr st).cssW = nextCssWidth clientW img ∧
    (fitCanvasToContainer clientW img dpr st).cssH = nextCssHeight clientW img ∧
    (fitCanvasToContainer clientW img dpr st).pixelW = nextPixelWidth clientW img dpr ∧
    (fitCanvasToContainer clientW img dpr st).pixelH = nextPixelHeight clientW img dpr := by
  unfold fitCanvasToContainer
  dsimp only
  split
  · next h => exact h
  · exact ⟨rfl, rfl, rfl, rfl⟩

/-- When the computed dimensions already match the stored ones,
`fitCanvasToContainer` returns its state unchanged. -/
lemma fitCanvasToContainer_eq_self (clientW : ℤ) (img : Img) (dpr : ℚ)
    (st : SurfaceState)
    (h1 : st.cssW = nextCssWidth clientW img)
    (h2 : st.cssH = nextCssHeight clientW img)
    (h3 : st.pixelW = nextPixelWidth clientW img dpr)
    (h4 : st.pixelH = nextPixelHeight clientW img dpr) :
    fitCanvasToContainer clientW img dpr st = st := by
  unfold fitCanvasToContainer
  dsimp only
  rw [if_pos ⟨h1, h2, h3, h4⟩]

/-- C7: refitting the canvas a second time with identical container size,
image and device pixel ratio changes nothing; in particular, when the newly
computed css and pixel dimensions equal the current ones the operation
returns its state untouched (no size, scroll, pan or zoom change). -/
theorem fitCanvasToContainer_idempotent (clientW : ℤ) (img : Img) (dpr : ℚ)
    (st : SurfaceState) :
    fitCanvasToContainer clientW img dpr (fitCanvasToContainer clientW img dpr st) =
      fitCanvasToContainer clientW img dpr st ∧
    (st.cssW = nextCssWidth clientW img → st.cssH = nextCssHeight clientW img →
      st.pixelW = nextPixelWidth clientW img dpr →
      st.pixelH = nextPixelHeight clientW img dpr →
      fitCanvasToContainer clientW img dpr st = st) := by
  constructor
  · obtain ⟨h1, h2, h3, h4⟩ := fitCanvasToContainer_dims clientW img dpr st
    exact fitCanvasToContainer_eq_self clientW img dpr _ h1 h2 h3 h4
  · exact fitCanvasToContainer_eq_self clientW img dpr st

/-- C7 witness: fitting an already-fitted 400-wide state for an 800 × 600
image at dpr 1 in a 432-wide container is a no-op, and double fit equals
single fit. -/
theorem fitCanvasToContainer_idempotent_witness :
    fitCanvasToContainer 432 { naturalWidth := 800, naturalHeight := 600 } 1
        (fitCanvasToContainer 432 { naturalWidth := 800, naturalHeight := 600 } 1
          { cssW := 0, cssH := 0, pixelW := 0, pixelH := 0,
            scroll := { x := 0, y := 0 },
            vp := { zoom := 1, pan := { x := 0, y := 0 } } }) =
      fitCanvasToContainer 432 { naturalWidth := 800, naturalHeight := 600 } 1
        { cssW := 0, cssH := 0, pixelW := 0, pixelH := 0,
          scroll := { x := 0, y := 0 },
          vp := { zoom := 1, pan := { x := 0, y := 0 } } } ∧
    fitCanvasToContainer 432 { naturalWidth := 800, naturalHeight := 600 } 1
        { cssW := 400, cssH := 300, pixelW := 400, pixelH := 300,
          scroll := { x := 0, y := 0 },
          vp := { zoom := 1, pan := { x := 0, y := 0 } } } =
      { cssW := 400, cssH := 300, pixelW := 400, pixelH := 300,
        scroll := { x := 0, y := 0 },
        vp := { zoom := 1, pan := { x := 0, y := 0 } } } :=
  ⟨(fitCanvasToContainer_idempotent 432 { naturalWidth := 800, naturalHeight := 600 } 1
      { cssW := 0, cssH := 0, pixelW := 0, pixelH := 0,
        scroll := { x := 0, y := 0 },
        vp := { zoom := 1, pan := { x := 0, y := 0 } } }).1,
    (fitCanvasToContainer_idempotent 432 { naturalWidth := 800, naturalHeight := 600 } 1
      { cssW := 400, cssH := 300, pixelW := 400, pixelH := 300,
        scroll := { x := 0, y := 0 },
        vp := { zoom := 1, pan := { x := 0, y := 0 } } }).2
      (by norm_num [nextCssWidth])
      (by norm_num [nextCssHeight, nextCssWidth, jsRound])
      (by norm_num [nextPixelWidth, nextCssWidth, jsRound])
      (by norm_num [nextPixelHeight, nextCssHeight, nextCssWidth, jsRound])⟩

/-- The clamped new zoom is always at least `0.2`, hence positive. -/
lemma newZoom_pos (oldZ factor : ℚ) : 0 < newZoom oldZ factor := by
  have h : (1 : ℚ) / 5 ≤ newZoom oldZ factor :=
    le_min (by norm_num) (le_max_left _ _)
  linarith

/-- C8: when the pan solved for by `zoomAt` is not cut off by the pan bounds,
the content point (and hence the natural-image point) under the mouse before
the zoom is still under it afterwards — exactly, in rational arithmetic. -/
theorem wheelZoom_anchor (canvas : Canvas) (img : Img) (vp : Viewport)
    (mx my factor : ℚ) (hz : 0 < vp.zoom)
    (hraw : inBounds (getPanBounds canvas.width canvas.height (newZoom vp.zoom factor))
        (rawZoomPan vp mx my (newZoom vp.zoom factor))) :
    (mx - (wheelZoom canvas.width canvas.height vp mx my factor).pan.x) /
        (wheelZoom canvas.width canvas.height vp mx my factor).zoom =
      (mx - vp.pan.x) / vp.zoom ∧
    (my - (wheelZoom canvas.width canvas.height vp mx my factor).pan.y) /
        (wheelZoom canvas.width canvas.height vp mx my factor).zoom =
      (my - vp.pan.y) / vp.zoom ∧
    imageCoordsCore canvas img
        (wheelZoom canvas.width canvas.height vp mx my factor).zoom
        (wheelZoom canvas.width canvas.height vp mx my factor).pan mx my =
      imageCoordsCore canvas img vp.zoom vp.pan mx my := by
  have hnz : 0 < newZoom vp.zoom factor := newZoom_pos vp.zoom factor
  have hzz : vp.zoom ≠ 0 := ne_of_gt hz
  have hnzz : newZoom vp.zoom factor ≠ 0 := ne_of_gt hnz
  have hmain :
      (mx - (wheelZoom canvas.width canvas.height vp mx my factor).pan.x) /
          (wheelZoom canvas.width canvas.height vp mx my factor).zoom =
        (mx - vp.pan.x) / vp.zoom ∧
      (my - (wheelZoom canvas.width canvas.height vp mx my factor).pan.y) /
          (wheelZoom canvas.width canvas.height vp mx my factor).zoom =
        (my - vp.pan.y) / vp.zoom := by
    unfold wheelZoom
    dsimp only
    split
    · exact ⟨rfl, rfl⟩
    · rw [clampPan_eq_of_inBounds hraw]
      unfold rawZoomPan
      dsimp only
      constructor
      · field_simp
        ring
      · field_simp
        ring
  refine ⟨hmain.1, hmain.2, ?_⟩
  unfold imageCoordsCore
  rw [hmain.1, hmain.2]

/-- C8 witness: zooming from 1 to 2 toward canvas point (50, 50) on a
100 × 100 canvas keeps the natural point under the cursor fixed. -/
theorem wheelZoom_anchor_witness :
    (50 - (wheelZoom 100 100 { zoom := 1, pan := { x := 0, y := 0 } } 50 50 2).pan.x) /
        (wheelZoom 100 100 { zoom := 1, pan := { x := 0, y := 0 } } 50 50 2).zoom =
      ((50 : ℚ) - 0) / 1 :=
  (wheelZoom_anchor { width := 100, height := 100 }
    { naturalWidth := 50, naturalHeight := 50 }
    { zoom := 1, pan := { x := 0, y := 0 } } 50 50 2 (by norm_num)
    (by norm_num [inBounds, getPanBounds, rawZoomPan, newZoom])).1

/-- Adding the absolute difference to the minimum of two integers gives
their maximum. -/
lemma min_add_abs_sub (a b : ℤ) : min a b + |b - a| = max a b := by
  rcases le_total a b with h | h
  · rw [min_eq_left h, abs_of_nonneg (by omega), max_eq_right h]
    omega
  · rw [min_eq_right h, abs_of_nonpos (by omega), max_eq_left h]
    omega

/-- C10: every box committed through the gesture lifecycle, with both
endpoints produced by the screen-to-natural transform, lies entirely within
the image: `0 ≤ x`, `0 ≤ y`, `x + w ≤ naturalWidth`, `y + h ≤ naturalHeight`. -/
theorem committed_box_within_image (canvas : Canvas) (img : Img) (z : ℚ)
    (pan : Point) (cx1 cy1 cx2 cy2 : ℚ) (newId : String) (boxes : List Box)
    (hz : 0 < z) (hw : 0 < canvas.width) (hh : 0 < canvas.height) :
    ∀ b ∈ (endInteractions
        { isDrawing := true,
          startPt := some (imageCoordsCore canvas img z pan cx1 cy1),
          currentPt := some (imageCoordsCore canvas img z pan cx2 cy2) }
        newId boxes).1,
      b ∈ boxes ∨
        (0 ≤ b.x ∧ 0 ≤ b.y ∧ b.x + b.w ≤ (img.naturalWidth : ℤ) ∧
          b.y + b.h ≤ (img.naturalHeight : ℤ)) := by
  intro b hb
  have hs := imageCoordsCore_mem canvas img z pan cx1 cy1
  have hc := imageCoordsCore_mem canvas img z pan cx2 cy2
  simp only [endInteractions] at hb
  split at hb
  · rcases List.mem_append.mp hb with hmem | hmem
    · exact Or.inl hmem
    · right
      rw [List.mem_singleton.mp hmem]
      dsimp only
      refine ⟨le_min hs.1 hc.1, le_min hs.2.2.1 hc.2.2.1, ?_, ?_⟩
      · rw [min_add_abs_sub]
        exact max_le hs.2.1 hc.2.1
      · rw [min_add_abs_sub]
        exact max_le hs.2.2.2 hc.2.2.2
  · exact Or.inl hb

/-- C10 witness: the box committed from events at (0,0) and (40,40) on a
100 × 100 canvas over a 50 × 50 image lies within the image. -/
theorem committed_box_within_image_witness :
    ({ id := "f1", x := 0, y := 0, w := 20, h := 20, name := "" } : Box) ∈
        ([] : List Box) ∨
      (0 ≤ (0 : ℤ) ∧ 0 ≤ (0 : ℤ) ∧ (0 : ℤ) + 20 ≤ ((50 : ℕ) : ℤ) ∧
        (0 : ℤ) + 20 ≤ ((50 : ℕ) : ℤ)) :=
  committed_box_within_image { width := 100, height := 100 }
    { naturalWidth := 50, naturalHeight := 50 } 1 { x := 0, y := 0 }
    0 0 40 40 "f1" [] (by norm_num) (by norm_num) (by norm_num)
    { id := "f1", x := 0, y := 0, w := 20, h := 20, name := "" }
    (by norm_num [endInteractions, imageCoordsCore, jsRound])

end Annotator
